import Mathlib

/-!
Shallow embedding of the slogtool Go package
(convert_modes.go and the slogger implementation file).

Go string types are embedded as Lean String, the int-based LogLevel as
Int, Go errors as Option GoError, and the slog machinery as explicit
records: a slog logger holds its handler and the attributes accumulated
by With, and each emission produces one Record value.  The filesystem
consulted by InitLogger is passed in as a function so that the
construction logic stays a pure function of its inputs.
-/

namespace Slogtool

/-- Mode is the string-backed mode type from convert_modes.go. -/
abbrev Mode := String

/-- DevMode constant, the literal string dev. -/
def DevMode : Mode := "dev"

/-- ProdMode constant, the literal string prod. -/
def ProdMode : Mode := "prod"

/-- The String method of Mode: returns the underlying string. -/
def ModeString (m : Mode) : String := m

/-- LogLevel represents the severity of the log message (Go: int via iota). -/
abbrev LogLevel := Int

/-- LevelDebug = 0 (first iota value). -/
def LevelDebug : LogLevel := 0

/-- LevelInfo = 1. -/
def LevelInfo : LogLevel := 1

/-- LevelWarn = 2. -/
def LevelWarn : LogLevel := 2

/-- LevelError = 3. -/
def LevelError : LogLevel := 3

/-- ParseMode from convert_modes.go: switch on the raw string, with
ProdMode as the default branch. -/
def ParseMode (mode : String) : Mode :=
  if mode = ModeString DevMode then DevMode
  else if mode = ModeString ProdMode then ProdMode
  else ProdMode

/-- ConvertLoggerMode from convert_modes.go: switch on the Mode, with
LevelInfo as the default branch. -/
def ConvertLoggerMode (mode : Mode) : LogLevel :=
  if mode = DevMode then LevelDebug
  else if mode = ProdMode then LevelInfo
  else LevelInfo

/-- Severity levels of the Go standard slog package, embedded by their
numeric values (Debug = -4, Info = 0, Warn = 4, Error = 8). -/
abbrev SlogLevel := Int

/-- slog.LevelDebug. -/
def slogLevelDebug : SlogLevel := -4

/-- slog.LevelInfo. -/
def slogLevelInfo : SlogLevel := 0

/-- slog.LevelWarn. -/
def slogLevelWarn : SlogLevel := 4

/-- slog.LevelError. -/
def slogLevelError : SlogLevel := 8

/-- One element of a variadic attributes list (Go ...any).  The code
under verification builds strAttr values via slog.String, anyAttr values
via slog.Any (payload kept opaque as a string tag), group values via
slog.Group, and forwards caller-supplied arguments unchanged; raw covers
any other value a caller may pass. -/
inductive LogArg where
  | strAttr (key value : String)
  | anyAttr (key : String) (value : String)
  | group (name : String) (args : List LogArg)
  | raw (value : String)

/-- slog.String: a string-valued attribute. -/
def slogString (key value : String) : LogArg := .strAttr key value

/-- slog.Any: an attribute with an arbitrary value. -/
def slogAny (key value : String) : LogArg := .anyAttr key value

/-- slog.Group: a named group of attributes. -/
def slogGroup (name : String) (args : List LogArg) : LogArg := .group name args

/-- Options of the tint handler as used by InitLogger: a minimum level
and a timestamp display format. -/
structure TintOptions where
  level : SlogLevel
  timeFormat : String
deriving DecidableEq

/-- The output sink a handler writes to: one of the two standard
streams, or an opened file identified by its path. -/
inductive Sink where
  | stdout
  | stderr
  | file (path : String)
deriving DecidableEq

/-- A constructed slog handler: either the colorized pretty renderer
(tint.NewHandler) or the JSON renderer (slog.NewJSONHandler) with its
minimum-severity floor. -/
inductive Handler where
  | tint (output : Sink) (options : TintOptions)
  | json (output : Sink) (level : SlogLevel)
deriving DecidableEq

/-- The sink a handler was constructed over. -/
def handlerSink : Handler → Sink
  | .tint out _ => out
  | .json out _ => out

/-- A slog.Logger value: the handler it was created over and the
attributes accumulated through With calls. -/
structure SlogLogger where
  handler : Handler
  preAttrs : List LogArg

/-- slog.New: a fresh logger over a handler, with no accumulated
attributes. -/
def slogNew (h : Handler) : SlogLogger := ⟨h, []⟩

/-- slog.Logger.With: returns a logger whose accumulated attributes are
extended by the given arguments. -/
def SlogLogger.withArgs (l : SlogLogger) (args : List LogArg) : SlogLogger :=
  ⟨l.handler, l.preAttrs ++ args⟩

/-- One emitted log record: severity, message, and the argument list
delivered to the handler (accumulated attributes first, then the
arguments of the call). -/
structure Record where
  level : LogLevel
  message : String
  args : List LogArg

/-- Emission of one record by a slog.Logger at a given level. -/
def SlogLogger.log (l : SlogLogger) (level : LogLevel) (msg : String)
    (args : List LogArg) : Record :=
  ⟨level, msg, l.preAttrs ++ args⟩

/-- A Go error value: what its Error() method returns. -/
structure GoError where
  message : String
deriving DecidableEq

/-- Slogger wraps a slog.Logger. -/
structure Slogger where
  logger : SlogLogger

/-- Slogger.Debug: logs a debug level message. -/
def Slogger.Debug (l : Slogger) (description : String)
    (attributes : List LogArg) : Record :=
  l.logger.log LevelDebug description attributes

/-- Slogger.Info: logs an info level message. -/
def Slogger.Info (l : Slogger) (description : String)
    (attributes : List LogArg) : Record :=
  l.logger.log LevelInfo description attributes

/-- Slogger.Warn: logs a warn level message. -/
def Slogger.Warn (l : Slogger) (description : String)
    (attributes : List LogArg) : Record :=
  l.logger.log LevelWarn description attributes

/-- Slogger.Error: logs an error level message, appending one attribute
under the key error whose value is the literal nil when err is nil and
the message text of err otherwise. -/
def Slogger.Error (l : Slogger) (description : String) (err : Option GoError)
    (attributes : List LogArg) : Record :=
  match err with
  | none =>
    let attrs := attributes ++ [slogString "error" "nil"]
    l.logger.log LevelError description attrs
  | some e =>
    let attrs := attributes ++ [slogString "error" e.message]
    l.logger.log LevelError description attrs

/-- Slogger.LogAndReturnError: performs the Error emission and returns
the given err; the pair holds the emitted record and the returned
error. -/
def Slogger.LogAndReturnError (l : Slogger) (message : String)
    (err : Option GoError) (attributes : List LogArg) :
    Record × Option GoError :=
  (l.Error message err attributes, err)

/-- Slogger.WithOperation: returns a new logger carrying one more
string attribute under the key operation. -/
def Slogger.WithOperation (l : Slogger) (operation : String) : Slogger :=
  ⟨l.logger.withArgs [slogString "operation" operation]⟩

/-- Slogger.With: returns a new logger carrying the extra attributes. -/
def Slogger.With (l : Slogger) (attributes : List LogArg) : Slogger :=
  ⟨l.logger.withArgs attributes⟩

/-- Slogger.StringAttr: builds a string attribute for logging. -/
def Slogger.StringAttr (_l : Slogger) (key value : String) : LogArg :=
  slogString key value

/-- Slogger.AnyAttr: builds an any-typed attribute for logging. -/
def Slogger.AnyAttr (_l : Slogger) (key value : String) : LogArg :=
  slogAny key value

/-- getHandlerForOutput: switch on the log level; LevelDebug gets the
tint handler, LevelInfo, LevelWarn and LevelError get the JSON handler
with the matching slog level floor, and the default branch falls back
to the tint handler. -/
def getHandlerForOutput (output : Sink) (mode : LogLevel)
    (options : TintOptions) : Handler :=
  if mode = LevelDebug then .tint output options
  else if mode = LevelInfo then .json output slogLevelInfo
  else if mode = LevelWarn then .json output slogLevelWarn
  else if mode = LevelError then .json output slogLevelError
  else .tint output options

/-- Flags passed to os.OpenFile, kept symbolic: the source passes
O_WRONLY together with O_CREATE and O_APPEND. -/
structure OpenFileFlags where
  writeOnly : Bool
  create : Bool
  append : Bool
deriving DecidableEq

/-- The flag combination InitLogger uses for the log file. -/
def initFlags : OpenFileFlags := ⟨true, true, true⟩

/-- The permission mode 0755 InitLogger passes to os.OpenFile. -/
def initPerm : Nat := 0o755

/-- time.Kitchen, the timestamp format given to the tint handler. -/
def timeKitchen : String := "3:04PM"

/-- Build information as read by runtime debug.ReadBuildInfo. -/
structure BuildInfo where
  goVersion : String
deriving DecidableEq

/-- The filesystem as seen by InitLogger: opening a path with the given
flags and permission either succeeds or yields an error. -/
abbrev FileSystem := String → OpenFileFlags → Nat → Except GoError Unit

/-- The final construction step of InitLogger: wrap a fresh slog logger
over the handler and attach the program_info group (go_version from the
build info, or unknown when that info is absent). -/
def mkInitSlogger (handler : Handler) (buildInfo : Option BuildInfo) : Slogger :=
  let bi := buildInfo.getD ⟨"unknown"⟩
  ⟨(slogNew handler).withArgs
    [slogGroup "program_info" [slogString "go_version" bi.goVersion]]⟩

/-- InitLogger: resolves the output string to a sink (stdout and stderr
select the standard streams; anything else is opened through the
filesystem with the append flags and mode 0755, a failure being the
panic carried as the error case), builds the handler via
getHandlerForOutput, and wraps the resulting logger. -/
def InitLogger (mode : LogLevel) (output : String) (fs : FileSystem)
    (buildInfo : Option BuildInfo) : Except String Slogger :=
  let options : TintOptions := ⟨slogLevelDebug, timeKitchen⟩
  if output = "stdout" then
    .ok (mkInitSlogger (getHandlerForOutput .stdout mode options) buildInfo)
  else if output = "stderr" then
    .ok (mkInitSlogger (getHandlerForOutput .stderr mode options) buildInfo)
  else
    match fs output initFlags initPerm with
    | .error e =>
      .error ("error opening log file " ++ output ++ ": " ++ e.message)
    | .ok _ =>
      .ok (mkInitSlogger (getHandlerForOutput (.file output) mode options)
        buildInfo)

end Slogtool

namespace Slogtool

/-- C1: ParseMode returns DevMode exactly on the literal dev, returns
ProdMode on the literal prod, and returns ProdMode for every other
input, the empty string included; being a Lean function it is total and
never fails. -/
theorem parseMode_spec (raw : String) :
    (ParseMode raw = DevMode ↔ raw = "dev") ∧
    (raw = "prod" → ParseMode raw = ProdMode) ∧
    (raw ≠ "dev" → ParseMode raw = ProdMode) := by
  unfold ParseMode ModeString DevMode ProdMode
  by_cases h1 : raw = "dev" <;> by_cases h2 : raw = "prod" <;>
    simp_all

/-- C1 witness: evaluated at the inputs prod and the empty string. -/
theorem parseMode_spec_w :
    ParseMode "prod" = ProdMode ∧ ParseMode "" = ProdMode :=
  ⟨(parseMode_spec "prod").2.1 rfl, (parseMode_spec "").2.2 (by decide)⟩

/-- C2: ConvertLoggerMode is a pure total function sending DevMode to
LevelDebug, ProdMode to LevelInfo, and any other mode value to
LevelInfo. -/
theorem convertLoggerMode_spec :
    ConvertLoggerMode DevMode = LevelDebug ∧
    ConvertLoggerMode ProdMode = LevelInfo ∧
    ∀ m : Mode, m ≠ DevMode → m ≠ ProdMode → ConvertLoggerMode m = LevelInfo := by
  refine ⟨by decide, by decide, ?_⟩
  intro m h1 h2
  unfold ConvertLoggerMode
  simp [h1, h2]

/-- C2 witness: evaluated at a mode value that is neither dev nor
prod. -/
theorem convertLoggerMode_spec_w :
    ConvertLoggerMode "staging" = LevelInfo :=
  convertLoggerMode_spec.2.2 "staging" (by decide) (by decide)

end Slogtool

namespace Slogtool

/-- C3: handler selection picks the tint pretty renderer at LevelDebug,
the JSON renderer with the matching minimum-severity floor at
LevelInfo, LevelWarn and LevelError, and falls back to the pretty
renderer at any other level value. -/
theorem getHandlerForOutput_spec (out : Sink) (opts : TintOptions)
    (lvl : LogLevel) :
    getHandlerForOutput out LevelDebug opts = Handler.tint out opts ∧
    getHandlerForOutput out LevelInfo opts = Handler.json out slogLevelInfo ∧
    getHandlerForOutput out LevelWarn opts = Handler.json out slogLevelWarn ∧
    getHandlerForOutput out LevelError opts = Handler.json out slogLevelError ∧
    (lvl ≠ LevelDebug → lvl ≠ LevelInfo → lvl ≠ LevelWarn →
      lvl ≠ LevelError → getHandlerForOutput out lvl opts = Handler.tint out opts) := by
  refine ⟨by simp [getHandlerForOutput], ?_, ?_, ?_, ?_⟩ <;>
    first
    | (intro h1 h2 h3 h4; simp [getHandlerForOutput, h1, h2, h3, h4])
    | simp [getHandlerForOutput, LevelDebug, LevelInfo, LevelWarn, LevelError]

/-- C3 witness: evaluated at a concrete sink, concrete options and the
out-of-range level 7. -/
theorem getHandlerForOutput_spec_w :
    getHandlerForOutput Sink.stdout 7 ⟨slogLevelDebug, timeKitchen⟩ =
      Handler.tint Sink.stdout ⟨slogLevelDebug, timeKitchen⟩ :=
  (getHandlerForOutput_spec Sink.stdout ⟨slogLevelDebug, timeKitchen⟩ 7).2.2.2.2
    (by decide) (by decide) (by decide) (by decide)

/-- C7: LogAndReturnError performs exactly the Error emission and
returns the err value passed in, unchanged, for every message, error
value and attribute list. -/
theorem logAndReturnError_spec (l : Slogger) (msg : String)
    (err : Option GoError) (attrs : List LogArg) :
    Slogger.LogAndReturnError l msg err attrs =
      (Slogger.Error l msg err attrs, err) := rfl

/-- C10: WithOperation is exactly With applied to the single string
attribute with key operation, so both derivation paths yield equal
loggers and hence identical subsequent emissions. -/
theorem withOperation_eq_with_stringAttr (l : Slogger) (op : String) :
    Slogger.WithOperation l op =
      Slogger.With l [Slogger.StringAttr l "operation" op] := rfl

end Slogtool

namespace Slogtool

/-- C9: the composition of ConvertLoggerMode after ParseMode yields
LevelDebug exactly on the input dev and LevelInfo on every other input,
in particular never LevelWarn or LevelError, so mode-driven handler
construction can only select the tint debug handler or the JSON handler
with the info floor. -/
theorem mode_resolution_composition (s : String) (out : Sink)
    (opts : TintOptions) :
    (ConvertLoggerMode (ParseMode s) = LevelDebug ↔ s = "dev") ∧
    (s ≠ "dev" → ConvertLoggerMode (ParseMode s) = LevelInfo) ∧
    ConvertLoggerMode (ParseMode s) ≠ LevelWarn ∧
    ConvertLoggerMode (ParseMode s) ≠ LevelError ∧
    (getHandlerForOutput out (ConvertLoggerMode (ParseMode s)) opts =
        Handler.tint out opts ∨
      getHandlerForOutput out (ConvertLoggerMode (ParseMode s)) opts =
        Handler.json out slogLevelInfo) := by
  unfold ConvertLoggerMode ParseMode getHandlerForOutput ModeString
    DevMode ProdMode LevelDebug LevelInfo LevelWarn LevelError
  by_cases h1 : s = "dev" <;> by_cases h2 : s = "prod" <;>
    simp_all

/-- C9 witness: evaluated at the unrecognized input verbose. -/
theorem mode_resolution_composition_w :
    ConvertLoggerMode (ParseMode "verbose") = LevelInfo :=
  (mode_resolution_composition "verbose" Sink.stdout
    ⟨slogLevelDebug, timeKitchen⟩).2.1 (by decide)

/-- C6: Error emits one record at error severity carrying the message,
and its argument list is the accumulated attributes followed by the
call attributes followed by exactly one attribute under the key error,
whose value is the literal nil when err is absent and the message text
of err otherwise; the function is total and never fails. -/
theorem slogger_error_spec (l : Slogger) (msg : String)
    (err : Option GoError) (attrs : List LogArg) :
    (Slogger.Error l msg err attrs).level = LevelError ∧
    (Slogger.Error l msg err attrs).message = msg ∧
    (err = none →
      (Slogger.Error l msg err attrs).args =
        l.logger.preAttrs ++ attrs ++ [slogString "error" "nil"]) ∧
    (∀ e, err = some e →
      (Slogger.Error l msg err attrs).args =
        l.logger.preAttrs ++ attrs ++ [slogString "error" e.message]) := by
  cases err with
  | none => simp [Slogger.Error, SlogLogger.log]
  | some e => simp [Slogger.Error, SlogLogger.log]

/-- C6 witness: evaluated at a concrete logger for both the nil and the
non-nil error case. -/
theorem slogger_error_spec_w :
    (Slogger.Error ⟨⟨Handler.tint Sink.stdout ⟨slogLevelDebug, timeKitchen⟩, []⟩⟩
        "boom" none []).args = [slogString "error" "nil"] ∧
    (Slogger.Error ⟨⟨Handler.tint Sink.stdout ⟨slogLevelDebug, timeKitchen⟩, []⟩⟩
        "boom" (some ⟨"disk full"⟩) []).args = [slogString "error" "disk full"] :=
  ⟨((slogger_error_spec ⟨⟨Handler.tint Sink.stdout ⟨slogLevelDebug, timeKitchen⟩, []⟩⟩
      "boom" none []).2.2.1 rfl),
   ((slogger_error_spec ⟨⟨Handler.tint Sink.stdout ⟨slogLevelDebug, timeKitchen⟩, []⟩⟩
      "boom" (some ⟨"disk full"⟩) []).2.2.2 ⟨"disk full"⟩ rfl)⟩

end Slogtool

namespace Slogtool

/-- The handler built by getHandlerForOutput always writes to the sink
it was given. -/
theorem handlerSink_getHandlerForOutput (out : Sink) (mode : LogLevel)
    (opts : TintOptions) :
    handlerSink (getHandlerForOutput out mode opts) = out := by
  unfold getHandlerForOutput
  split_ifs <;> rfl

/-- C8: With and WithOperation copy-and-extend, leaving the receiver
untouched: the derived logger carries the old accumulated attributes
plus the extras, and an emission made from the original instance does
not contain a fresh extra attribute while the same emission from the
child does. -/
theorem with_derivation_frame (l : Slogger) (extra attrs : List LogArg)
    (op msg : String) (err : Option GoError) (a : LogArg) :
    (Slogger.With l extra).logger.preAttrs = l.logger.preAttrs ++ extra ∧
    (Slogger.WithOperation l op).logger.preAttrs =
      l.logger.preAttrs ++ [slogString "operation" op] ∧
    (a ∈ extra → a ∉ l.logger.preAttrs → a ∉ attrs →
      (err = none → a ≠ slogString "error" "nil") →
      (∀ e, err = some e → a ≠ slogString "error" e.message) →
      a ∉ (Slogger.Error l msg err attrs).args ∧
      a ∈ (Slogger.Error (Slogger.With l extra) msg err attrs).args) ∧
    (slogString "operation" op ∉ l.logger.preAttrs →
      slogString "operation" op ∉ attrs →
      slogString "operation" op ∉ (Slogger.Error l msg err attrs).args ∧
      slogString "operation" op ∈
        (Slogger.Error (Slogger.WithOperation l op) msg err attrs).args) := by
  refine ⟨rfl, rfl, ?_, ?_⟩
  · intro ha hpre hattrs hnil hsome
    cases err with
    | none =>
      exact ⟨by simp [Slogger.Error, SlogLogger.log, hpre, hattrs, hnil rfl],
        by simp [Slogger.Error, SlogLogger.log, Slogger.With,
          SlogLogger.withArgs, ha]⟩
    | some e =>
      exact ⟨by simp [Slogger.Error, SlogLogger.log, hpre, hattrs, hsome e rfl],
        by simp [Slogger.Error, SlogLogger.log, Slogger.With,
          SlogLogger.withArgs, ha]⟩
  · intro hpre hattrs
    simp only [slogString] at hpre hattrs
    cases err with
    | none =>
      exact ⟨by simp [Slogger.Error, SlogLogger.log, hpre, hattrs, slogString],
        by simp [Slogger.Error, SlogLogger.log, Slogger.WithOperation,
          SlogLogger.withArgs, slogString]⟩
    | some e =>
      exact ⟨by simp [Slogger.Error, SlogLogger.log, hpre, hattrs, slogString],
        by simp [Slogger.Error, SlogLogger.log, Slogger.WithOperation,
          SlogLogger.withArgs, slogString]⟩

/-- C8 witness: a fresh extra attribute is absent from an emission of
the original logger and present in the same emission of the derived
one. -/
theorem with_derivation_frame_w :
    LogArg.raw "x" ∉
      (Slogger.Error ⟨⟨Handler.tint Sink.stdout ⟨slogLevelDebug, timeKitchen⟩, []⟩⟩
        "m" none []).args ∧
    LogArg.raw "x" ∈
      (Slogger.Error
        (Slogger.With ⟨⟨Handler.tint Sink.stdout ⟨slogLevelDebug, timeKitchen⟩, []⟩⟩
          [LogArg.raw "x"]) "m" none []).args :=
  (with_derivation_frame
    ⟨⟨Handler.tint Sink.stdout ⟨slogLevelDebug, timeKitchen⟩, []⟩⟩
    [LogArg.raw "x"] [] "op" "m" none (LogArg.raw "x")).2.2.1
    (by simp) (by simp) (by simp)
    (fun _ h => LogArg.noConfusion h)
    (fun e he => Option.noConfusion he)

end Slogtool

namespace Slogtool

/-- C4: the output literals stdout and stderr select the matching
standard stream and the construction result does not depend on the
filesystem at all; every other string is opened as a path with the
write-append-create flags and permission mode 0755, the result
depending on the filesystem only through that one call, and a
successful open yields a logger writing to that file. -/
theorem initLogger_output_routing (mode : LogLevel) (fs fs2 : FileSystem)
    (bi : Option BuildInfo) (out : String) :
    initFlags = ⟨true, true, true⟩ ∧
    initPerm = 0o755 ∧
    InitLogger mode "stdout" fs bi = InitLogger mode "stdout" fs2 bi ∧
    (∃ l, InitLogger mode "stdout" fs bi = .ok l ∧
      handlerSink l.logger.handler = Sink.stdout) ∧
    InitLogger mode "stderr" fs bi = InitLogger mode "stderr" fs2 bi ∧
    (∃ l, InitLogger mode "stderr" fs bi = .ok l ∧
      handlerSink l.logger.handler = Sink.stderr) ∧
    (out ≠ "stdout" → out ≠ "stderr" →
      (fs out initFlags initPerm = fs2 out initFlags initPerm →
        InitLogger mode out fs bi = InitLogger mode out fs2 bi) ∧
      (fs out initFlags initPerm = .ok () →
        ∃ l, InitLogger mode out fs bi = .ok l ∧
          handlerSink l.logger.handler = Sink.file out)) := by
  refine ⟨rfl, rfl, rfl, ?_, rfl, ?_, ?_⟩
  · refine ⟨mkInitSlogger
      (getHandlerForOutput Sink.stdout mode ⟨slogLevelDebug, timeKitchen⟩) bi,
      by simp [InitLogger], ?_⟩
    simp [mkInitSlogger, slogNew, SlogLogger.withArgs,
      handlerSink_getHandlerForOutput]
  · refine ⟨mkInitSlogger
      (getHandlerForOutput Sink.stderr mode ⟨slogLevelDebug, timeKitchen⟩) bi,
      by simp [InitLogger], ?_⟩
    simp [mkInitSlogger, slogNew, SlogLogger.withArgs,
      handlerSink_getHandlerForOutput]
  · intro h1 h2
    constructor
    · intro heq
      simp only [InitLogger, h1, h2, if_false, heq]
    · intro hok
      refine ⟨mkInitSlogger
        (getHandlerForOutput (Sink.file out) mode ⟨slogLevelDebug, timeKitchen⟩)
        bi, ?_, ?_⟩
      · simp only [InitLogger, h1, h2, if_false, hok]
      · simp [mkInitSlogger, slogNew, SlogLogger.withArgs,
          handlerSink_getHandlerForOutput]

/-- C4 witness: evaluated with a concrete always-succeeding filesystem
at the path app.log. -/
theorem initLogger_output_routing_w :
    ∃ l, InitLogger LevelInfo "app.log" (fun _ _ _ => Except.ok ()) none =
        .ok l ∧ handlerSink l.logger.handler = Sink.file "app.log" :=
  ((initLogger_output_routing LevelInfo (fun _ _ _ => Except.ok ())
    (fun _ _ _ => Except.ok ()) none "app.log").2.2.2.2.2.2
    (by decide) (by decide)).2 rfl

/-- C5: for a non-sentinel output whose open fails, InitLogger is fatal
with a diagnostic naming the path and the underlying cause, and this is
the only way construction can fail: every error result arises from a
failed open of a non-sentinel output and carries exactly that
diagnostic. -/
theorem initLogger_open_failure_fatal (mode : LogLevel) (out : String)
    (fs : FileSystem) (bi : Option BuildInfo) :
    (∀ e, out ≠ "stdout" → out ≠ "stderr" →
      fs out initFlags initPerm = .error e →
      InitLogger mode out fs bi =
        .error ("error opening log file " ++ out ++ ": " ++ e.message)) ∧
    (∀ m, InitLogger mode out fs bi = .error m →
      out ≠ "stdout" ∧ out ≠ "stderr" ∧
      ∃ e, fs out initFlags initPerm = .error e ∧
        m = "error opening log file " ++ out ++ ": " ++ e.message) := by
  constructor
  · intro e h1 h2 herr
    simp only [InitLogger, h1, h2, if_false, herr]
  · intro m hm
    by_cases h1 : out = "stdout"
    · simp [InitLogger, h1] at hm
    · by_cases h2 : out = "stderr"
      · simp [InitLogger, h2] at hm
      · refine ⟨h1, h2, ?_⟩
        simp only [InitLogger, h1, h2, if_false] at hm
        cases herr : fs out initFlags initPerm with
        | ok u => rw [herr] at hm; simp at hm
        | error e =>
          rw [herr] at hm
          simp only [Except.error.injEq] at hm
          exact ⟨e, rfl, hm.symm⟩

/-- C5 witness: a concrete filesystem refusing the open makes
construction fail with the diagnostic naming both the path and the
cause. -/
theorem initLogger_open_failure_fatal_w :
    InitLogger LevelInfo "app.log"
      (fun _ _ _ => Except.error ⟨"denied"⟩) none =
      .error "error opening log file app.log: denied" :=
  (initLogger_open_failure_fatal LevelInfo "app.log"
    (fun _ _ _ => Except.error ⟨"denied"⟩) none).1 ⟨"denied"⟩
    (by decide) (by decide) rfl

end Slogtool
